import Mathlib

/-!
Verification development for the movie-query CLI tool (src/movie_query.py).

The Python program is shallowly embedded: each predicate lambda of
MovieQuery.flag_map, the top_ten_map sort criteria, collect_filters,
filter_results, the load_movies sort and generate_genre_insights are
translated into executable Lean definitions.  Python exceptions
(TypeError, AttributeError, ValueError, ZeroDivisionError, KeyError and
the SystemExit raised by exit(...)) are modelled by an error type, and
every fallible operation returns Except.  Python floats are modelled by
the rationals: every numeric literal appearing in the verified claims is
exactly representable, and the order-theoretic facts proved here do not
depend on rounding.
-/

/-- The Python exceptions the embedded code can raise.  Messages are not
modelled, only the kind of exception. -/
inductive PyError where
  | typeError
  | attributeError
  | valueError
  | keyError
  | zeroDivisionError
  | systemExit
deriving DecidableEq

/-! ### Python string helpers

Core String functions such as String.split are defined by well-founded
recursion on byte positions, which the kernel cannot evaluate; the
embedding therefore re-implements the few Python string operations it
needs structurally over the character list of the string. -/

/-- listStartsWith hay pat is true when pat is an initial segment of hay
(Python str.startswith on the underlying characters). -/
def listStartsWith : List Char → List Char → Bool
  | _, [] => true
  | [], _ :: _ => false
  | c :: cs, d :: ds => c == d && listStartsWith cs ds

/-- listContainsSeg pat hay is true when pat occurs contiguously inside
hay (Python substring containment, the in operator on str). -/
def listContainsSeg (pat : List Char) : List Char → Bool
  | [] => listStartsWith [] pat
  | c :: rest => listStartsWith (c :: rest) pat || listContainsSeg pat rest

/-- Python sub in hay for strings. -/
def pyContains (hay sub : String) : Bool :=
  listContainsSeg sub.toList hay.toList

/-- Python str.lower (ASCII case folding suffices for this program's data). -/
def pyLower (s : String) : String :=
  String.mk (s.toList.map Char.toLower)

/-- Auxiliary for pySplit: accumulates the current field in reverse. -/
def pySplitAux (sep : Char) : List Char → List Char → List (List Char)
  | [], acc => [acc.reverse]
  | c :: cs, acc =>
    if c == sep then acc.reverse :: pySplitAux sep cs []
    else pySplitAux sep cs (c :: acc)

/-- Python str.split with an explicit one-character separator: "a,b".split(",")
gives ["a", "b"], and "".split(",") gives [""].  No whitespace stripping is
performed, exactly as in Python. -/
def pySplit (s : String) (sep : Char) : List String :=
  (pySplitAux sep s.toList []).map String.mk

/-- Strips leading and trailing whitespace, as Python int()/float() do
before parsing. -/
def trimSpaces (cs : List Char) : List Char :=
  ((cs.dropWhile Char.isWhitespace).reverse.dropWhile Char.isWhitespace).reverse

/-- Reads a non-empty run of decimal digits as a Nat; none on any other input. -/
def parseDigitsAux : List Char → Nat → Option Nat
  | [], acc => some acc
  | c :: cs, acc =>
    if c.isDigit then parseDigitsAux cs (acc * 10 + (c.toNat - 48)) else none

/-- parseDigits cs is the value of cs when cs is a non-empty digit string. -/
def parseDigits : List Char → Option Nat
  | [] => none
  | cs => parseDigitsAux cs 0

/-- Numeric value of a (possibly empty) digit list; used for the two digit
runs around the decimal point of a float literal. -/
def digitsVal (cs : List Char) : Nat :=
  cs.foldl (fun acc c => acc * 10 + (c.toNat - 48)) 0

/-- Model of Python int(str): optional surrounding whitespace, an optional
sign, then decimal digits; anything else raises ValueError. -/
def pyInt (s : String) : Except PyError Int :=
  match trimSpaces s.toList with
  | '-' :: rest =>
    match parseDigits rest with
    | some n => .ok (-(n : Int))
    | none => .error .valueError
  | '+' :: rest =>
    match parseDigits rest with
    | some n => .ok (n : Int)
    | none => .error .valueError
  | cs =>
    match parseDigits cs with
    | some n => .ok (n : Int)
    | none => .error .valueError

/-- Digits with at most one decimal point and at least one digit, valued as
a rational.  This models the decimal forms of Python float literals used by
the tool (exponents and inf/nan are outside the verified claims). -/
def parseUnsignedDecimal (cs : List Char) : Option ℚ :=
  if cs.all (fun c => c.isDigit || c == '.') then
    if cs.count '.' == 0 then
      (parseDigits cs).map (fun n => (n : ℚ))
    else if cs.count '.' == 1 then
      let intPart := cs.takeWhile (fun c => c != '.')
      let fracPart := (cs.dropWhile (fun c => c != '.')).tail
      if intPart.isEmpty && fracPart.isEmpty then none
      else some ((digitsVal intPart : ℚ) + (digitsVal fracPart : ℚ) / (10 : ℚ) ^ fracPart.length)
    else none
  else none

/-- Model of Python float(str) on decimal literals: optional whitespace and
sign, digits with an optional decimal point; ValueError otherwise. -/
def pyFloat (s : String) : Except PyError ℚ :=
  match trimSpaces s.toList with
  | '-' :: rest =>
    match parseUnsignedDecimal rest with
    | some q => .ok (-q)
    | none => .error .valueError
  | '+' :: rest =>
    match parseUnsignedDecimal rest with
    | some q => .ok q
    | none => .error .valueError
  | cs =>
    match parseUnsignedDecimal cs with
    | some q => .ok q
    | none => .error .valueError

/-! ### The record model (class MovieMetric) -/

/-- One validated movie row.  All fields but the title are optional, as in
the pydantic model; imdb_rating (a Python float) is modelled by ℚ. -/
structure MovieMetric where
  series_title : String
  released_year : Option Int
  certificate : Option String
  runtime : Option Int
  genre : Option String
  imdb_rating : Option ℚ
  overview : Option String
  meta_score : Option Int
  director : Option String
  star_1 : Option String
  star_2 : Option String
  star_3 : Option String
  star_4 : Option String
  no_of_votes : Option Int
  gross : Option Int
deriving DecidableEq

/-- The range constraints pydantic enforces at construction time:
runtime > 0, 0 ≤ imdb_rating ≤ 10, 0 < meta_score ≤ 100, no_of_votes > 0,
each only when the field is present. -/
def MovieMetric.Valid (m : MovieMetric) : Prop :=
  (∀ r, m.runtime = some r → 0 < r) ∧
  (∀ q, m.imdb_rating = some q → 0 ≤ q ∧ q ≤ 10) ∧
  (∀ s, m.meta_score = some s → 0 < s ∧ s ≤ 100) ∧
  (∀ v, m.no_of_votes = some v → 0 < v)

/-- A record with every optional field absent; used as base for the
concrete records in the theorems below. -/
def emptyMovie : MovieMetric :=
  { series_title := ""
    released_year := none
    certificate := none
    runtime := none
    genre := none
    imdb_rating := none
    overview := none
    meta_score := none
    director := none
    star_1 := none
    star_2 := none
    star_3 := none
    star_4 := none
    no_of_votes := none
    gross := none }

/-! ### Python truthiness

The predicates are written movie.field and ..., so a missing (None) field
and a zero or empty field both short-circuit the conjunction to a falsy
value without evaluating the right operand. -/

/-- Truthiness of an optional Python int: None and 0 are falsy. -/
def intTruthy : Option Int → Bool
  | none => false
  | some n => !(n == 0)

/-- Truthiness of an optional Python float: None and 0.0 are falsy. -/
def ratTruthy : Option ℚ → Bool
  | none => false
  | some q => !(q == 0)

/-- Truthiness of an optional Python str: None and "" are falsy. -/
def strTruthy : Option String → Bool
  | none => false
  | some s => !(s == "")

/-! ### The filter predicates (MovieQuery.flag_map lambdas)

Each lambda movie.field and ... is embedded by first testing the
truthiness of the field (a falsy field short-circuits to a falsy result
without parsing the flag value), then parsing the flag value (ValueError
on malformed numerals), then comparing with strict < or >. -/

/-- Predicate of the year-before flag. -/
def pYearBefore (movie : MovieMetric) (year : String) : Except PyError Bool :=
  match movie.released_year with
  | none => .ok false
  | some n => if n = 0 then .ok false else (pyInt year).map (fun y => decide (n < y))

/-- Predicate of the year-after flag. -/
def pYearAfter (movie : MovieMetric) (year : String) : Except PyError Bool :=
  match movie.released_year with
  | none => .ok false
  | some n => if n = 0 then .ok false else (pyInt year).map (fun y => decide (n > y))

/-- Predicate of the rating-above flag. -/
def pRatingAbove (movie : MovieMetric) (rating : String) : Except PyError Bool :=
  match movie.imdb_rating with
  | none => .ok false
  | some r => if r = 0 then .ok false else (pyFloat rating).map (fun x => decide (r > x))

/-- Predicate of the rating-below flag. -/
def pRatingBelow (movie : MovieMetric) (rating : String) : Except PyError Bool :=
  match movie.imdb_rating with
  | none => .ok false
  | some r => if r = 0 then .ok false else (pyFloat rating).map (fun x => decide (r < x))

/-- Predicate of the runtime-above flag. -/
def pRuntimeAbove (movie : MovieMetric) (runtime : String) : Except PyError Bool :=
  match movie.runtime with
  | none => .ok false
  | some n => if n = 0 then .ok false else (pyInt runtime).map (fun y => decide (n > y))

/-- Predicate of the runtime-below flag. -/
def pRuntimeBelow (movie : MovieMetric) (runtime : String) : Except PyError Bool :=
  match movie.runtime with
  | none => .ok false
  | some n => if n = 0 then .ok false else (pyInt runtime).map (fun y => decide (n < y))

/-- Predicate of the gross-above flag. -/
def pGrossAbove (movie : MovieMetric) (gross : String) : Except PyError Bool :=
  match movie.gross with
  | none => .ok false
  | some n => if n = 0 then .ok false else (pyInt gross).map (fun y => decide (n > y))

/-- Predicate of the gross-below flag. -/
def pGrossBelow (movie : MovieMetric) (gross : String) : Except PyError Bool :=
  match movie.gross with
  | none => .ok false
  | some n => if n = 0 then .ok false else (pyInt gross).map (fun y => decide (n < y))

/-- Predicate of the score-above flag. -/
def pScoreAbove (movie : MovieMetric) (score : String) : Except PyError Bool :=
  match movie.meta_score with
  | none => .ok false
  | some n => if n = 0 then .ok false else (pyInt score).map (fun y => decide (n > y))

/-- Predicate of the score-below flag. -/
def pScoreBelow (movie : MovieMetric) (score : String) : Except PyError Bool :=
  match movie.meta_score with
  | none => .ok false
  | some n => if n = 0 then .ok false else (pyInt score).map (fun y => decide (n < y))

/-- Predicate of the votes-above flag. -/
def pVotesAbove (movie : MovieMetric) (votes : String) : Except PyError Bool :=
  match movie.no_of_votes with
  | none => .ok false
  | some n => if n = 0 then .ok false else (pyInt votes).map (fun y => decide (n > y))

/-- Predicate of the votes-below flag. -/
def pVotesBelow (movie : MovieMetric) (votes : String) : Except PyError Bool :=
  match movie.no_of_votes with
  | none => .ok false
  | some n => if n = 0 then .ok false else (pyInt votes).map (fun y => decide (n < y))

/-- Predicate of the title flag: case-insensitive substring containment
(series_title is required, only its truthiness is tested). -/
def pTitle (movie : MovieMetric) (title : String) : Except PyError Bool :=
  if movie.series_title = "" then .ok false
  else .ok (pyContains (pyLower movie.series_title) (pyLower title))

/-- Predicate of the director flag: case-insensitive substring containment. -/
def pDirector (movie : MovieMetric) (director : String) : Except PyError Bool :=
  match movie.director with
  | none => .ok false
  | some d =>
    if d = "" then .ok false
    else .ok (pyContains (pyLower d) (pyLower director))

/-- Predicate of the actor flag.  The Python lambda builds the tuple
(movie.star_1.lower(), ..., movie.star_4.lower()) before the membership
test, dereferencing the four star fields in order; a missing star raises
AttributeError. -/
def pActor (movie : MovieMetric) (actor : String) : Except PyError Bool :=
  match movie.star_1 with
  | none => .error .attributeError
  | some s1 =>
    match movie.star_2 with
    | none => .error .attributeError
    | some s2 =>
      match movie.star_3 with
      | none => .error .attributeError
      | some s3 =>
        match movie.star_4 with
        | none => .error .attributeError
        | some s4 =>
          .ok ([pyLower s1, pyLower s2, pyLower s3, pyLower s4].contains (pyLower actor))

/-- Predicate of the genre flag: genre.lower() in movie.genre.lower().split(",").
The split is on the bare comma with no stripping, so a token after a comma
keeps its leading space. -/
def pGenre (movie : MovieMetric) (genre : String) : Except PyError Bool :=
  match movie.genre with
  | none => .ok false
  | some g =>
    if g = "" then .ok false
    else .ok ((pySplit (pyLower g) ',').contains (pyLower genre))

/-- Predicate of the age-rating flag: case-insensitive exact equality with
the certificate field. -/
def pAgeRating (movie : MovieMetric) (certificate : String) : Except PyError Bool :=
  match movie.certificate with
  | none => .ok false
  | some c =>
    if c = "" then .ok false
    else .ok (pyLower c == pyLower certificate)

/-- MovieQuery.flag_map: the dispatch dict from filter-flag name to
predicate, in source order. -/
def flag_map : List (String × (MovieMetric → String → Except PyError Bool)) :=
  [ ("--year-before", pYearBefore)
  , ("--year-after", pYearAfter)
  , ("--rating-above", pRatingAbove)
  , ("--rating-below", pRatingBelow)
  , ("--runtime-above", pRuntimeAbove)
  , ("--runtime-below", pRuntimeBelow)
  , ("--gross-above", pGrossAbove)
  , ("--gross-below", pGrossBelow)
  , ("--score-above", pScoreAbove)
  , ("--score-below", pScoreBelow)
  , ("--votes-above", pVotesAbove)
  , ("--votes-below", pVotesBelow)
  , ("--title", pTitle)
  , ("--director", pDirector)
  , ("--actor", pActor)
  , ("--genre", pGenre)
  , ("--age-rating", pAgeRating) ]

/-- The keys of MovieQuery.command_map. -/
def commandKeys : List String := ["--top-ten", "--output", "--insights"]

/-! ### Argument classification (MovieQuery.collect_filters) -/

/-- Python dict assignment d[k] = v: overwrites in place when the key is
present, appends otherwise. -/
def dictInsert (d : List (String × String)) (k v : String) : List (String × String) :=
  match d with
  | [] => [(k, v)]
  | (k2, v2) :: rest => if k2 == k then (k2, v) :: rest else (k2, v2) :: dictInsert rest k v

/-- Python k in d for a dict. -/
def dictContains (d : List (String × String)) (k : String) : Bool :=
  d.any (fun p => p.1 == k)

/-- The while loop of collect_filters over the remaining argument tokens.
Fatal exit(...) calls (invalid flag token, missing value, unknown flag)
are modelled by the systemExit error; a duplicate command flag only skips
the assignment (after printing a warning). -/
def collectLoop : List String → List (String × String) → List (String × String) →
    Except PyError (List (String × String) × List (String × String))
  | [], filters, commands => .ok (filters, commands)
  | flag :: rest, filters, commands =>
    if listStartsWith flag.toList ['-', '-'] then
      match rest with
      | [] => .error .systemExit
      | value :: rest2 =>
        if listStartsWith value.toList ['-', '-'] then .error .systemExit
        else if (flag_map.lookup flag).isSome then
          collectLoop rest2 (dictInsert filters flag value) commands
        else if commandKeys.contains flag then
          if dictContains commands flag then collectLoop rest2 filters commands
          else collectLoop rest2 filters (dictInsert commands flag value)
        else .error .systemExit
    else .error .systemExit

/-- MovieQuery.collect_filters: walks args two tokens at a time from the
given start index and splits them into the filter dict and the command dict. -/
def collect_filters (args : List String) (index : Nat) :
    Except PyError (List (String × String) × List (String × String)) :=
  collectLoop (args.drop index) [] []

/-! ### The filter engine (MovieQuery.filter_results) -/

/-- The inner loop over the filter dict for one movie, carrying the
match_all_filters and abort variables.  Python short-circuits
match_all_filters and pred(movie, value), so once match_all_filters is
falsy no further predicate (and no further exception) is evaluated; a
ValueError is caught and sets abort, every other exception propagates. -/
def applyFilters (movie : MovieMetric) :
    List (String × String) → Bool → Bool → Except PyError (Bool × Bool)
  | [], matchAll, abort => .ok (matchAll, abort)
  | (flag, value) :: rest, matchAll, abort =>
    if matchAll then
      match flag_map.lookup flag with
      | none => .error .keyError
      | some pred =>
        match pred movie value with
        | .ok b => applyFilters movie rest b abort
        | .error .valueError => applyFilters movie rest matchAll true
        | .error e => .error e
    else applyFilters movie rest matchAll abort

/-- The outer loop of filter_results over the movie list: a movie is
appended iff every predicate was truthy; abort exits fatally after the
movie's filter pass. -/
def filterLoop (filters : List (String × String)) :
    List MovieMetric → Except PyError (List MovieMetric)
  | [] => .ok []
  | m :: rest =>
    match applyFilters m filters true false with
    | .error e => .error e
    | .ok (matchAll, abort) =>
      if abort then .error .systemExit
      else
        match filterLoop filters rest with
        | .error e => .error e
        | .ok others => .ok (if matchAll then m :: others else others)

/-- MovieQuery.filter_results. -/
def filter_results (movies : List MovieMetric) (filters : List (String × String)) :
    Except PyError (List MovieMetric) :=
  filterLoop filters movies

/-! ### The rating sort in load_movies -/

/-- Comparison key of movies.sort(key=lambda x: x.imdb_rating, reverse=True);
the default 0 is never reached on the success path, where every rating is
present. -/
def ratingKeyD (m : MovieMetric) : ℚ :=
  m.imdb_rating.getD 0

/-- The sort at the end of load_movies.  CPython list.sort compares raw
imdb_rating values; comparing None with a float (or None) raises TypeError,
and every element of a list of length at least two takes part in at least
one comparison, so the sort raises exactly when the list has two or more
elements and some rating is None.  Otherwise it is a stable descending
sort by rating. -/
def load_movies_sort (movies : List MovieMetric) : Except PyError (List MovieMetric) :=
  if decide (2 ≤ movies.length) && movies.any (fun m => m.imdb_rating.isNone) then
    .error .typeError
  else
    .ok (List.insertionSort (fun a b => ratingKeyD b ≤ ratingKeyD a) movies)

/-! ### The top-ten criteria (MovieQuery.top_ten_map) -/

/-- Sort key of the highest-rated criterion: -movie.imdb_rating; unary
minus on None raises TypeError. -/
def keyHighestRated (m : MovieMetric) : Except PyError ℚ :=
  match m.imdb_rating with
  | none => .error .typeError
  | some r => .ok (-r)

/-- Sort key of the most-popular criterion: -movie.no_of_votes. -/
def keyMostPopular (m : MovieMetric) : Except PyError ℚ :=
  match m.no_of_votes with
  | none => .error .typeError
  | some v => .ok (-(v : ℚ))

/-- Sort key of the highest-grossing criterion: -movie.gross. -/
def keyHighestGrossing (m : MovieMetric) : Except PyError ℚ :=
  match m.gross with
  | none => .error .typeError
  | some g => .ok (-(g : ℚ))

/-- Sort key of the longest-runtime criterion: -movie.runtime. -/
def keyLongestRuntime (m : MovieMetric) : Except PyError ℚ :=
  match m.runtime with
  | none => .error .typeError
  | some r => .ok (-(r : ℚ))

/-- Sort key of the hidden-gems criterion: -movie.imdb_rating / movie.no_of_votes.
The negation of a None rating raises TypeError before the division; dividing
by a None votes value raises TypeError; dividing by zero votes raises
ZeroDivisionError (unreachable for validated records, whose votes are
positive when present). -/
def keyHiddenGems (m : MovieMetric) : Except PyError ℚ :=
  match m.imdb_rating, m.no_of_votes with
  | some r, some v => if v = 0 then .error .zeroDivisionError else .ok (-r / (v : ℚ))
  | _, _ => .error .typeError

/-- CPython sorted(movies, key=f) materializes f on every element before
comparing, so the first raising element determines the exception. -/
def firstKeyError (key : MovieMetric → Except PyError ℚ) (movies : List MovieMetric) :
    Option PyError :=
  movies.findSome? (fun m => match key m with | .error e => some e | .ok _ => none)

/-- The computed key on the success path (0 is never reached there). -/
def sortKeyD (key : MovieMetric → Except PyError ℚ) (m : MovieMetric) : ℚ :=
  match key m with
  | .ok q => q
  | .error _ => 0

/-- Python sorted(movies, key=key): ascending stable sort by the computed
key, or the exception of the first element whose key raises. -/
def pySortedBy (key : MovieMetric → Except PyError ℚ) (movies : List MovieMetric) :
    Except PyError (List MovieMetric) :=
  match firstKeyError key movies with
  | some e => .error e
  | none => .ok (List.insertionSort (fun a b => sortKeyD key a ≤ sortKeyD key b) movies)

/-- MovieQuery.top_ten_map: criterion name to sorted(movies, key=...)[:10]. -/
def top_ten_map : String → Option (List MovieMetric → Except PyError (List MovieMetric))
  | "highest-rated" => some (fun movies => (pySortedBy keyHighestRated movies).map (fun l => l.take 10))
  | "most-popular" => some (fun movies => (pySortedBy keyMostPopular movies).map (fun l => l.take 10))
  | "highest-grossing" => some (fun movies => (pySortedBy keyHighestGrossing movies).map (fun l => l.take 10))
  | "longest-runtime" => some (fun movies => (pySortedBy keyLongestRuntime movies).map (fun l => l.take 10))
  | "hidden-gems" => some (fun movies => (pySortedBy keyHiddenGems movies).map (fun l => l.take 10))
  | _ => none

/-- The top-ten branch of perform_commands: an unknown criterion value is
a fatal exit. -/
def runTopTen (value : String) (movies : List MovieMetric) :
    Except PyError (List MovieMetric) :=
  match top_ten_map value with
  | some f => f movies
  | none => .error .systemExit

/-! ### Genre insights (MovieQuery.generate_genre_insights) -/

/-- One printed stat line of the genre insights. -/
structure GenreStat where
  genre : Option String
  average_rating : ℚ
  average_gross : Int
  average_runtime : Int
deriving DecidableEq

/-- The grouping keys: the set comprehension over the raw genre field
values.  Python set iteration order is unspecified; the model fixes the
deduplicated list of field values (List.dedup), which is immaterial to the
claims proved about this function. -/
def genreKeys (movies : List MovieMetric) : List (Option String) :=
  (movies.map (fun m => m.genre)).dedup

/-- The guard genre in movie.genre.split(",") and movie.imdb_rating and
movie.gross and movie.runtime, given that movie.genre is the present value
g.  A None key is never an element of a list of strings in Python. -/
def genreMatchCond (key : Option String) (g : String) (m : MovieMetric) : Bool :=
  (match key with
   | none => false
   | some k => (pySplit g ',').contains k)
  && ratTruthy m.imdb_rating && intTruthy m.gross && intTruthy m.runtime

/-- The inner loop of generate_genre_insights for one grouping key: running
sums of rating, gross and runtime plus the qualifying count.  The loop
evaluates movie.genre.split(",") unconditionally, so a movie with a None
genre raises AttributeError. -/
def genreGroupTotals (key : Option String) :
    List MovieMetric → Except PyError (ℚ × Int × Int × Nat)
  | [] => .ok (0, 0, 0, 0)
  | m :: rest =>
    match m.genre with
    | none => .error .attributeError
    | some g =>
      match genreGroupTotals key rest with
      | .error e => .error e
      | .ok (r, gr, rt, t) =>
        if genreMatchCond key g m then
          .ok (r + m.imdb_rating.getD 0, gr + m.gross.getD 0, rt + m.runtime.getD 0, t + 1)
        else .ok (r, gr, rt, t)

/-- The outer loop over the grouping keys: groups with no qualifying movie
are omitted, the averages use true division for the rating and Python
floor division (Int.fdiv) for gross and runtime. -/
def genreStatsLoop (movies : List MovieMetric) :
    List (Option String) → Except PyError (List GenreStat)
  | [] => .ok []
  | k :: ks =>
    match genreGroupTotals k movies with
    | .error e => .error e
    | .ok (r, gr, rt, t) =>
      match genreStatsLoop movies ks with
      | .error e => .error e
      | .ok rest =>
        if 0 < t then
          .ok ({ genre := k
                 average_rating := r / (t : ℚ)
                 average_gross := Int.fdiv gr (t : Int)
                 average_runtime := Int.fdiv rt (t : Int) } :: rest)
        else .ok rest

/-- MovieQuery.generate_genre_insights, returning the list of printed
stats instead of printing them. -/
def generate_genre_insights (movies : List MovieMetric) : Except PyError (List GenreStat) :=
  genreStatsLoop movies (genreKeys movies)

/-! ### Concrete records used by the theorems -/

/-- A record whose genre field is "Drama, Comedy". -/
def dcMovie : MovieMetric := { emptyMovie with genre := some "Drama, Comedy" }

/-- A record with genre "Drama, Comedy" and all three insight metrics
present, so the genre-insights claim can be tested on it. -/
def dcFullMovie : MovieMetric :=
  { emptyMovie with
    genre := some "Drama, Comedy"
    imdb_rating := some 8
    gross := some 100
    runtime := some 120 }

/-- A record with only an imdb rating. -/
def ratedMovie : MovieMetric := { emptyMovie with imdb_rating := some 9 }

/-- Hidden-gems scenario record A: rating 9.0, 100 votes. -/
def gemA : MovieMetric := { emptyMovie with imdb_rating := some 9, no_of_votes := some 100 }

/-- Hidden-gems scenario record B: rating 9.0, 10 votes. -/
def gemB : MovieMetric := { emptyMovie with imdb_rating := some 9, no_of_votes := some 10 }

/-! ### Claim C1 -/

/-- Claim C1 is refuted by the code: the genre predicate lowercases the
genre field and splits it on the bare comma, so the field "Drama, Comedy"
yields the tokens "drama" and " comedy" (with a leading space).  The
filter value "Drama" matches the first token, but "Comedy" differs from
" comedy" and does not match, contradicting the claimed multi-token
matching; "Dra" does not match either. -/
theorem genre_predicate_comma_token_bug :
    pGenre dcMovie "Drama" = .ok true ∧
    pGenre dcMovie "Comedy" = .ok false ∧
    pGenre dcMovie "Dra" = .ok false :=
  ⟨rfl, rfl, rfl⟩

/-! ### Claim C3 -/

/-- Claim C3 is refuted by the code: generate_genre_insights keys its
groups by the distinct raw genre field strings, not by individual genre
tokens.  For the single record with genre "Drama, Comedy" the only group
key is the full string "Drama, Comedy", which is not an element of the
comma-split token list ["Drama", " Comedy"], so the record qualifies for
no group at all and the insights output is empty — instead of the record
contributing to a "Drama" group and a "Comedy" group as claimed. -/
theorem genre_insights_no_token_groups :
    generate_genre_insights [dcFullMovie] = .ok [] :=
  rfl

/-! ### Claim C10 -/

/-- For any grouping key, the inner accumulation loop raises
AttributeError as soon as it reaches a record whose genre is None,
because movie.genre.split(",") is evaluated unconditionally. -/
theorem genreGroupTotals_error_of_none (key : Option String) :
    ∀ movies : List MovieMetric, (∃ m ∈ movies, m.genre = none) →
      genreGroupTotals key movies = .error .attributeError := by
  intro movies
  induction movies with
  | nil => rintro ⟨x, hx, _⟩; exact absurd hx (List.not_mem_nil x)
  | cons m rest ih =>
    rintro ⟨x, hx, hxg⟩
    rcases List.mem_cons.mp hx with hxm | hxr
    · subst hxm
      simp [genreGroupTotals, hxg]
    · cases hmg : m.genre with
      | none => simp [genreGroupTotals, hmg]
      | some g =>
        have hrec := ih ⟨x, hxr, hxg⟩
        simp [genreGroupTotals, hmg, hrec]

/-- Claim C10: genre-mode insights is total only when every genre is
present — on any non-empty collection containing a record with an absent
genre, generate_genre_insights raises AttributeError instead of skipping
the record or producing output. -/
theorem genre_insights_raises_on_missing_genre :
    ∀ movies : List MovieMetric, movies ≠ [] →
      (∃ m ∈ movies, m.genre = none) →
      generate_genre_insights movies = .error .attributeError := by
  intro movies hne hex
  have hkeys : genreKeys movies ≠ [] := by
    simp only [genreKeys, ne_eq, List.dedup_eq_nil, List.map_eq_nil_iff]
    exact hne
  cases hk : genreKeys movies with
  | nil => exact absurd hk hkeys
  | cons k ks =>
    have htot := genreGroupTotals_error_of_none k movies hex
    simp [generate_genre_insights, hk, genreStatsLoop, htot]

/-- Witness for claim C10 at a concrete input. -/
theorem genre_insights_raises_on_missing_genre_witness :
    generate_genre_insights [emptyMovie] = .error .attributeError :=
  genre_insights_raises_on_missing_genre [emptyMovie] (by simp)
    ⟨emptyMovie, by simp, rfl⟩

/-! ### Claim C5 -/

/-- Claim C5: every filter predicate except actor evaluates to a falsy
result (never an error) on a record whose inspected field is absent,
because the Python conjunction movie.field and ... short-circuits on the
None field; the actor predicate instead lowercases all four star fields
unconditionally and raises AttributeError whenever at least one star is
absent. -/
theorem null_safe_predicates :
    (∀ m v, m.released_year = none → pYearBefore m v = .ok false) ∧
    (∀ m v, m.released_year = none → pYearAfter m v = .ok false) ∧
    (∀ m v, m.imdb_rating = none → pRatingAbove m v = .ok false) ∧
    (∀ m v, m.imdb_rating = none → pRatingBelow m v = .ok false) ∧
    (∀ m v, m.runtime = none → pRuntimeAbove m v = .ok false) ∧
    (∀ m v, m.runtime = none → pRuntimeBelow m v = .ok false) ∧
    (∀ m v, m.gross = none → pGrossAbove m v = .ok false) ∧
    (∀ m v, m.gross = none → pGrossBelow m v = .ok false) ∧
    (∀ m v, m.meta_score = none → pScoreAbove m v = .ok false) ∧
    (∀ m v, m.meta_score = none → pScoreBelow m v = .ok false) ∧
    (∀ m v, m.no_of_votes = none → pVotesAbove m v = .ok false) ∧
    (∀ m v, m.no_of_votes = none → pVotesBelow m v = .ok false) ∧
    (∀ m v, m.director = none → pDirector m v = .ok false) ∧
    (∀ m v, m.genre = none → pGenre m v = .ok false) ∧
    (∀ m v, m.certificate = none → pAgeRating m v = .ok false) ∧
    (∀ m v, (m.star_1 = none ∨ m.star_2 = none ∨ m.star_3 = none ∨ m.star_4 = none) →
      pActor m v = .error .attributeError) := by
  refine ⟨?_, ?_, ?_, ?_, ?_, ?_, ?_, ?_, ?_, ?_, ?_, ?_, ?_, ?_, ?_, ?_⟩
  · intro m v h; simp [pYearBefore, h]
  · intro m v h; simp [pYearAfter, h]
  · intro m v h; simp [pRatingAbove, h]
  · intro m v h; simp [pRatingBelow, h]
  · intro m v h; simp [pRuntimeAbove, h]
  · intro m v h; simp [pRuntimeBelow, h]
  · intro m v h; simp [pGrossAbove, h]
  · intro m v h; simp [pGrossBelow, h]
  · intro m v h; simp [pScoreAbove, h]
  · intro m v h; simp [pScoreBelow, h]
  · intro m v h; simp [pVotesAbove, h]
  · intro m v h; simp [pVotesBelow, h]
  · intro m v h; simp [pDirector, h]
  · intro m v h; simp [pGenre, h]
  · intro m v h; simp [pAgeRating, h]
  · intro m v h
    rcases h with h | h | h | h
    · simp [pActor, h]
    · cases h1 : m.star_1 <;> simp [pActor, h, h1]
    · cases h1 : m.star_1 <;> cases h2 : m.star_2 <;> simp [pActor, h, h1, h2]
    · cases h1 : m.star_1 <;> cases h2 : m.star_2 <;> cases h3 : m.star_3 <;>
        simp [pActor, h, h1, h2, h3]

/-- Witness for claim C5: all sixteen parts instantiated at the record
with every optional field absent. -/
theorem null_safe_predicates_witness :
    pYearBefore emptyMovie "x" = .ok false ∧
    pYearAfter emptyMovie "x" = .ok false ∧
    pRatingAbove emptyMovie "x" = .ok false ∧
    pRatingBelow emptyMovie "x" = .ok false ∧
    pRuntimeAbove emptyMovie "x" = .ok false ∧
    pRuntimeBelow emptyMovie "x" = .ok false ∧
    pGrossAbove emptyMovie "x" = .ok false ∧
    pGrossBelow emptyMovie "x" = .ok false ∧
    pScoreAbove emptyMovie "x" = .ok false ∧
    pScoreBelow emptyMovie "x" = .ok false ∧
    pVotesAbove emptyMovie "x" = .ok false ∧
    pVotesBelow emptyMovie "x" = .ok false ∧
    pDirector emptyMovie "x" = .ok false ∧
    pGenre emptyMovie "x" = .ok false ∧
    pAgeRating emptyMovie "x" = .ok false ∧
    pActor emptyMovie "x" = .error .attributeError := by
  obtain ⟨h1, h2, h3, h4, h5, h6, h7, h8, h9, h10, h11, h12, h13, h14, h15, h16⟩ :=
    null_safe_predicates
  exact ⟨h1 emptyMovie "x" rfl, h2 emptyMovie "x" rfl, h3 emptyMovie "x" rfl,
    h4 emptyMovie "x" rfl, h5 emptyMovie "x" rfl, h6 emptyMovie "x" rfl,
    h7 emptyMovie "x" rfl, h8 emptyMovie "x" rfl, h9 emptyMovie "x" rfl,
    h10 emptyMovie "x" rfl, h11 emptyMovie "x" rfl, h12 emptyMovie "x" rfl,
    h13 emptyMovie "x" rfl, h14 emptyMovie "x" rfl, h15 emptyMovie "x" rfl,
    h16 emptyMovie "x" (Or.inl rfl)⟩

/-! ### Claim C7 -/

/-- A record with year 2000, rating 8.0, runtime 120, meta score 80,
1000 votes and gross 5, used to witness the strict-threshold claim. -/
def thresholdMovie : MovieMetric :=
  { emptyMovie with
    released_year := some 2000
    imdb_rating := some 8
    runtime := some 120
    meta_score := some 80
    no_of_votes := some 1000
    gross := some 5 }

/-- Claim C7: all twelve numeric comparison predicates use strict
inequality, so a record whose field value equals the parsed filter
threshold matches neither the above/after nor the below/before filter of
that field. -/
theorem strict_threshold_no_match :
    (∀ m v y, pyInt v = .ok y → m.released_year = some y →
      pYearBefore m v = .ok false ∧ pYearAfter m v = .ok false) ∧
    (∀ m v x, pyFloat v = .ok x → m.imdb_rating = some x →
      pRatingAbove m v = .ok false ∧ pRatingBelow m v = .ok false) ∧
    (∀ m v y, pyInt v = .ok y → m.runtime = some y →
      pRuntimeAbove m v = .ok false ∧ pRuntimeBelow m v = .ok false) ∧
    (∀ m v y, pyInt v = .ok y → m.gross = some y →
      pGrossAbove m v = .ok false ∧ pGrossBelow m v = .ok false) ∧
    (∀ m v y, pyInt v = .ok y → m.meta_score = some y →
      pScoreAbove m v = .ok false ∧ pScoreBelow m v = .ok false) ∧
    (∀ m v y, pyInt v = .ok y → m.no_of_votes = some y →
      pVotesAbove m v = .ok false ∧ pVotesBelow m v = .ok false) := by
  refine ⟨?_, ?_, ?_, ?_, ?_, ?_⟩ <;> intro m v y hp hf <;> constructor
  · by_cases hy : y = 0 <;> simp [pYearBefore, hf, hp, hy, Except.map, lt_irrefl]
  · by_cases hy : y = 0 <;> simp [pYearAfter, hf, hp, hy, Except.map, lt_irrefl]
  · by_cases hy : y = 0 <;> simp [pRatingAbove, hf, hp, hy, Except.map, lt_irrefl]
  · by_cases hy : y = 0 <;> simp [pRatingBelow, hf, hp, hy, Except.map, lt_irrefl]
  · by_cases hy : y = 0 <;> simp [pRuntimeAbove, hf, hp, hy, Except.map, lt_irrefl]
  · by_cases hy : y = 0 <;> simp [pRuntimeBelow, hf, hp, hy, Except.map, lt_irrefl]
  · by_cases hy : y = 0 <;> simp [pGrossAbove, hf, hp, hy, Except.map, lt_irrefl]
  · by_cases hy : y = 0 <;> simp [pGrossBelow, hf, hp, hy, Except.map, lt_irrefl]
  · by_cases hy : y = 0 <;> simp [pScoreAbove, hf, hp, hy, Except.map, lt_irrefl]
  · by_cases hy : y = 0 <;> simp [pScoreBelow, hf, hp, hy, Except.map, lt_irrefl]
  · by_cases hy : y = 0 <;> simp [pVotesAbove, hf, hp, hy, Except.map, lt_irrefl]
  · by_cases hy : y = 0 <;> simp [pVotesBelow, hf, hp, hy, Except.map, lt_irrefl]

/-- Witness for claim C7: the twelve predicates at a record whose fields
equal the respective thresholds. -/
theorem strict_threshold_no_match_witness :
    pYearBefore thresholdMovie "2000" = .ok false ∧
    pYearAfter thresholdMovie "2000" = .ok false ∧
    pRatingAbove thresholdMovie "8" = .ok false ∧
    pRatingBelow thresholdMovie "8" = .ok false ∧
    pRuntimeAbove thresholdMovie "120" = .ok false ∧
    pRuntimeBelow thresholdMovie "120" = .ok false ∧
    pGrossAbove thresholdMovie "5" = .ok false ∧
    pGrossBelow thresholdMovie "5" = .ok false ∧
    pScoreAbove thresholdMovie "80" = .ok false ∧
    pScoreBelow thresholdMovie "80" = .ok false ∧
    pVotesAbove thresholdMovie "1000" = .ok false ∧
    pVotesBelow thresholdMovie "1000" = .ok false := by
  obtain ⟨hy, hr, hrt, hg, hs, hv⟩ := strict_threshold_no_match
  exact ⟨(hy thresholdMovie "2000" 2000 rfl rfl).1, (hy thresholdMovie "2000" 2000 rfl rfl).2,
    (hr thresholdMovie "8" 8 rfl rfl).1, (hr thresholdMovie "8" 8 rfl rfl).2,
    (hrt thresholdMovie "120" 120 rfl rfl).1, (hrt thresholdMovie "120" 120 rfl rfl).2,
    (hg thresholdMovie "5" 5 rfl rfl).1, (hg thresholdMovie "5" 5 rfl rfl).2,
    (hs thresholdMovie "80" 80 rfl rfl).1, (hs thresholdMovie "80" 80 rfl rfl).2,
    (hv thresholdMovie "1000" 1000 rfl rfl).1, (hv thresholdMovie "1000" 1000 rfl rfl).2⟩

/-! ### Claim C8 -/

/-- Any successful pass of the filter loop returns a sublist (an
order-preserving subset) of the input collection. -/
theorem filterLoop_sublist (filters : List (String × String)) :
    ∀ movies out, filterLoop filters movies = .ok out → List.Sublist out movies := by
  intro movies
  induction movies with
  | nil =>
    intro out h
    simp only [filterLoop] at h
    injection h with h2
    subst h2
    exact List.Sublist.refl []
  | cons m rest ih =>
    intro out h
    cases happ : applyFilters m filters true false with
    | error e => simp [filterLoop, happ] at h
    | ok pair =>
      obtain ⟨matchAll, abort⟩ := pair
      cases abort with
      | true => simp [filterLoop, happ] at h
      | false =>
        cases hrec : filterLoop filters rest with
        | error e => simp [filterLoop, happ, hrec] at h
        | ok others =>
          have hsub := ih others hrec
          simp only [filterLoop, happ, hrec] at h
          injection h with h2
          subst h2
          cases matchAll with
          | true => simpa using List.Sublist.cons₂ m hsub
          | false => simpa using List.Sublist.cons m hsub

/-- With an empty filter dict every record matches vacuously and the
filter pass reproduces the input collection. -/
theorem filterLoop_empty_filters :
    ∀ movies : List MovieMetric, filterLoop [] movies = .ok movies := by
  intro movies
  induction movies with
  | nil => rfl
  | cons m rest ih => simp [filterLoop, applyFilters, ih]

/-- Claim C8: a successful filter_results pass yields a subsequence of
the input collection (a subset in the original order), and with an empty
filter set it yields the input collection itself. -/
theorem filter_engine_spec :
    (∀ (movies : List MovieMetric) (filters : List (String × String)) out,
      filter_results movies filters = .ok out → List.Sublist out movies) ∧
    (∀ movies : List MovieMetric, filter_results movies [] = .ok movies) :=
  ⟨fun movies filters out h => filterLoop_sublist filters movies out h,
   fun movies => filterLoop_empty_filters movies⟩

/-- Witness for claim C8 at a concrete one-record collection. -/
theorem filter_engine_spec_witness :
    List.Sublist [ratedMovie] [ratedMovie] ∧
    filter_results [ratedMovie] [] = .ok [ratedMovie] :=
  ⟨filter_engine_spec.1 [ratedMovie] [] [ratedMovie] rfl,
   filter_engine_spec.2 [ratedMovie]⟩

/-! ### Claim C9 -/

/-- Claim C9: during argument classification a repeated filter flag
silently overwrites the earlier occurrence (the dict assignment keeps the
last value), while a repeated command flag is reported as a non-fatal
duplicate and ignored so the first value stands; classification succeeds
in both cases. -/
theorem collect_filters_duplicates :
    (∀ f v1 v2 : String, (flag_map.lookup f).isSome = true →
      listStartsWith f.toList ['-', '-'] = true →
      listStartsWith v1.toList ['-', '-'] = false →
      listStartsWith v2.toList ['-', '-'] = false →
      collect_filters [f, v1, f, v2] 0 = .ok ([(f, v2)], [])) ∧
    (∀ c v1 v2 : String, commandKeys.contains c = true →
      flag_map.lookup c = none →
      listStartsWith c.toList ['-', '-'] = true →
      listStartsWith v1.toList ['-', '-'] = false →
      listStartsWith v2.toList ['-', '-'] = false →
      collect_filters [c, v1, c, v2] 0 = .ok ([], [(c, v1)])) := by
  constructor
  · intro f v1 v2 hf hd h1 h2
    have hd2 : listStartsWith f.data ['-', '-'] = true := hd
    have h12 : listStartsWith v1.data ['-', '-'] = false := h1
    have h22 : listStartsWith v2.data ['-', '-'] = false := h2
    simp [collect_filters, collectLoop, hd2, h12, h22, hf, dictInsert]
  · intro c v1 v2 hc hnone hd h1 h2
    have hd2 : listStartsWith c.data ['-', '-'] = true := hd
    have h12 : listStartsWith v1.data ['-', '-'] = false := h1
    have h22 : listStartsWith v2.data ['-', '-'] = false := h2
    have hc2 : c ∈ commandKeys := by simpa using hc
    simp [collect_filters, collectLoop, hd2, h12, h22, hnone, hc2, dictInsert, dictContains]

/-- Witness for claim C9: a duplicated genre filter keeps the second
value, a duplicated top-ten command keeps the first. -/
theorem collect_filters_duplicates_witness :
    collect_filters ["--genre", "Drama", "--genre", "Comedy"] 0 =
      .ok ([("--genre", "Comedy")], []) ∧
    collect_filters ["--top-ten", "highest-rated", "--top-ten", "most-popular"] 0 =
      .ok ([], [("--top-ten", "highest-rated")]) :=
  ⟨collect_filters_duplicates.1 "--genre" "Drama" "Comedy" rfl rfl rfl rfl,
   collect_filters_duplicates.2 "--top-ten" "highest-rated" "most-popular" rfl rfl rfl rfl rfl⟩

/-! ### Claim C2 -/

/-- Counterexample to claim C2: with one rated and one unrated record the
load-time sort compares None with a float and raises TypeError — the load
fails instead of placing the unrated record below the rated one. -/
theorem load_sort_crashes_on_missing_rating :
    load_movies_sort [ratedMovie, emptyMovie] = .error .typeError :=
  rfl

/-- Amended claim C2: load_movies sorts by imdb_rating descending whenever
every record has a rating (a stable descending sort); but a record with no
imdb_rating makes the load fail with TypeError as soon as the collection
has at least two records, rather than being placed below the rated
records. -/
theorem load_movies_sort_spec :
    (∀ movies : List MovieMetric,
      (∀ m ∈ movies, m.imdb_rating.isSome = true) →
      ∃ l, load_movies_sort movies = .ok l ∧ List.Perm movies l ∧
        l.Pairwise (fun a b => ratingKeyD b ≤ ratingKeyD a)) ∧
    (∀ movies : List MovieMetric, 2 ≤ movies.length →
      (∃ m ∈ movies, m.imdb_rating = none) →
      load_movies_sort movies = .error .typeError) := by
  constructor
  · intro movies h
    have hany : movies.any (fun m => m.imdb_rating.isNone) = false := by
      rw [List.any_eq_false]
      intro x hx
      have hs := h x hx
      cases hc : x.imdb_rating with
      | none => rw [hc] at hs; exact absurd hs (by simp)
      | some q => simp [hc]
    refine ⟨List.insertionSort (fun a b => ratingKeyD b ≤ ratingKeyD a) movies, ?_, ?_, ?_⟩
    · simp [load_movies_sort, hany]
    · exact (List.perm_insertionSort _ movies).symm
    · haveI : IsTotal MovieMetric (fun a b => ratingKeyD b ≤ ratingKeyD a) :=
        ⟨fun a b => le_total (ratingKeyD b) (ratingKeyD a)⟩
      haveI : IsTrans MovieMetric (fun a b => ratingKeyD b ≤ ratingKeyD a) :=
        ⟨fun _ _ _ hab hbc => le_trans hbc hab⟩
      exact List.sorted_insertionSort (fun a b => ratingKeyD b ≤ ratingKeyD a) movies
  · intro movies hlen hex
    have hany : movies.any (fun m => m.imdb_rating.isNone) = true := by
      rw [List.any_eq_true]
      obtain ⟨m, hm, hn⟩ := hex
      exact ⟨m, hm, by simp [hn]⟩
    simp [load_movies_sort, hany, hlen]

/-- Witness for (amended) claim C2: the success branch on a one-record
collection and the failure branch on a two-record collection. -/
theorem load_movies_sort_spec_witness :
    (∃ l, load_movies_sort [ratedMovie] = .ok l ∧ List.Perm [ratedMovie] l ∧
      l.Pairwise (fun a b => ratingKeyD b ≤ ratingKeyD a)) ∧
    load_movies_sort [emptyMovie, emptyMovie] = .error .typeError :=
  ⟨load_movies_sort_spec.1 [ratedMovie] (by intro m hm; simp at hm; subst hm; rfl),
   load_movies_sort_spec.2 [emptyMovie, emptyMovie] (by simp)
     ⟨emptyMovie, by simp, rfl⟩⟩

/-! ### Claim C4 -/

/-- Counterexample to claim C4: the highest-rated reduction raises
TypeError on a record whose rating is absent (unary minus on None),
instead of excluding the record implicitly. -/
theorem top_ten_crashes_on_missing_field :
    runTopTen "highest-rated" [emptyMovie] = .error .typeError :=
  rfl

/-- If every key failure in the collection is a TypeError and some record's
key fails, then the upfront key materialization of sorted(...) reports
TypeError. -/
theorem firstKeyError_eq_typeError (key : MovieMetric → Except PyError ℚ) :
    ∀ movies : List MovieMetric,
      (∀ m ∈ movies, ∀ e, key m = .error e → e = .typeError) →
      (∃ m ∈ movies, key m = .error .typeError) →
      firstKeyError key movies = some .typeError := by
  intro movies
  induction movies with
  | nil => rintro _ ⟨x, hx, _⟩; exact absurd hx (List.not_mem_nil x)
  | cons m rest ih =>
    rintro honly ⟨x, hx, hxe⟩
    cases hk : key m with
    | error e =>
      have he : e = .typeError := honly m (List.mem_cons_self m rest) e hk
      subst he
      simp [firstKeyError, List.findSome?, hk]
    | ok q =>
      have hxr : x ∈ rest := by
        rcases List.mem_cons.mp hx with hxm | hxr
        · subst hxm; rw [hk] at hxe; exact absurd hxe (by simp)
        · exact hxr
      have := ih (fun n hn => honly n (List.mem_cons_of_mem m hn)) ⟨x, hxr, hxe⟩
      simpa [firstKeyError, List.findSome?, hk] using this

/-- If every record's key computes, the key materialization succeeds. -/
theorem firstKeyError_eq_none (key : MovieMetric → Except PyError ℚ) :
    ∀ movies : List MovieMetric,
      (∀ m ∈ movies, ∃ q, key m = .ok q) →
      firstKeyError key movies = none := by
  intro movies
  induction movies with
  | nil => intro _; rfl
  | cons m rest ih =>
    intro h
    obtain ⟨q, hq⟩ := h m (List.mem_cons_self m rest)
    have := ih (fun n hn => h n (List.mem_cons_of_mem m hn))
    simpa [firstKeyError, List.findSome?, hq] using this

/-- The highest-rated key fails only with TypeError. -/
theorem keyHighestRated_error {m : MovieMetric} {e : PyError}
    (h : keyHighestRated m = .error e) : e = .typeError := by
  cases hr : m.imdb_rating with
  | none => rw [keyHighestRated, hr] at h; injection h with h2; exact h2.symm
  | some r => rw [keyHighestRated, hr] at h; exact Except.noConfusion h

/-- The most-popular key fails only with TypeError. -/
theorem keyMostPopular_error {m : MovieMetric} {e : PyError}
    (h : keyMostPopular m = .error e) : e = .typeError := by
  cases hr : m.no_of_votes with
  | none => rw [keyMostPopular, hr] at h; injection h with h2; exact h2.symm
  | some v => rw [keyMostPopular, hr] at h; exact Except.noConfusion h

/-- The highest-grossing key fails only with TypeError. -/
theorem keyHighestGrossing_error {m : MovieMetric} {e : PyError}
    (h : keyHighestGrossing m = .error e) : e = .typeError := by
  cases hr : m.gross with
  | none => rw [keyHighestGrossing, hr] at h; injection h with h2; exact h2.symm
  | some g => rw [keyHighestGrossing, hr] at h; exact Except.noConfusion h

/-- The longest-runtime key fails only with TypeError. -/
theorem keyLongestRuntime_error {m : MovieMetric} {e : PyError}
    (h : keyLongestRuntime m = .error e) : e = .typeError := by
  cases hr : m.runtime with
  | none => rw [keyLongestRuntime, hr] at h; injection h with h2; exact h2.symm
  | some r => rw [keyLongestRuntime, hr] at h; exact Except.noConfusion h

/-- On a validated record (votes positive when present) the hidden-gems
key fails only with TypeError: ZeroDivisionError is unreachable. -/
theorem keyHiddenGems_error {m : MovieMetric} {e : PyError} (hval : m.Valid)
    (h : keyHiddenGems m = .error e) : e = .typeError := by
  cases hr : m.imdb_rating with
  | none =>
    cases hv : m.no_of_votes with
    | none => rw [keyHiddenGems, hr, hv] at h; injection h with h2; exact h2.symm
    | some v => rw [keyHiddenGems, hr, hv] at h; injection h with h2; exact h2.symm
  | some r =>
    cases hv : m.no_of_votes with
    | none => rw [keyHiddenGems, hr, hv] at h; injection h with h2; exact h2.symm
    | some v =>
      have hv0 : v ≠ 0 := ne_of_gt (hval.2.2.2 v hv)
      simp [keyHiddenGems, hr, hv, hv0] at h

/-- On a validated record with rating and votes present the hidden-gems
key computes. -/
theorem keyHiddenGems_ok {m : MovieMetric} (hval : m.Valid)
    (hr : m.imdb_rating.isSome = true) (hv : m.no_of_votes.isSome = true) :
    ∃ q, keyHiddenGems m = .ok q := by
  obtain ⟨r, hr2⟩ := Option.isSome_iff_exists.mp hr
  obtain ⟨v, hv2⟩ := Option.isSome_iff_exists.mp hv
  have hv0 : v ≠ 0 := ne_of_gt (hval.2.2.2 v hv2)
  exact ⟨-r / (v : ℚ), by simp [keyHiddenGems, hr2, hv2, hv0]⟩

/-- Amended claim C4: a record missing the field required by the chosen
top-ten criterion makes the reduction raise TypeError rather than being
excluded implicitly; division by zero votes in hidden-gems cannot occur
for validated records, whose votes are positive when present, so a
validated collection with all ratings and votes present reduces
successfully. -/
theorem top_ten_missing_field_spec :
    (∀ movies : List MovieMetric, (∃ m ∈ movies, m.imdb_rating = none) →
      runTopTen "highest-rated" movies = .error .typeError) ∧
    (∀ movies : List MovieMetric, (∃ m ∈ movies, m.no_of_votes = none) →
      runTopTen "most-popular" movies = .error .typeError) ∧
    (∀ movies : List MovieMetric, (∃ m ∈ movies, m.gross = none) →
      runTopTen "highest-grossing" movies = .error .typeError) ∧
    (∀ movies : List MovieMetric, (∃ m ∈ movies, m.runtime = none) →
      runTopTen "longest-runtime" movies = .error .typeError) ∧
    (∀ movies : List MovieMetric, (∀ m ∈ movies, m.Valid) →
      (∃ m ∈ movies, m.imdb_rating = none ∨ m.no_of_votes = none) →
      runTopTen "hidden-gems" movies = .error .typeError) ∧
    (∀ movies : List MovieMetric, (∀ m ∈ movies, m.Valid) →
      (∀ m ∈ movies, m.imdb_rating.isSome = true ∧ m.no_of_votes.isSome = true) →
      ∃ l, runTopTen "hidden-gems" movies = .ok l) := by
  refine ⟨?_, ?_, ?_, ?_, ?_, ?_⟩
  · intro movies hex
    have hfe : firstKeyError keyHighestRated movies = some .typeError := by
      refine firstKeyError_eq_typeError _ movies (fun m _ e he => keyHighestRated_error he) ?_
      obtain ⟨m, hm, hn⟩ := hex
      exact ⟨m, hm, by rw [keyHighestRated, hn]⟩
    show (pySortedBy keyHighestRated movies).map (fun l => l.take 10) = .error .typeError
    simp [pySortedBy, hfe, Except.map]
  · intro movies hex
    have hfe : firstKeyError keyMostPopular movies = some .typeError := by
      refine firstKeyError_eq_typeError _ movies (fun m _ e he => keyMostPopular_error he) ?_
      obtain ⟨m, hm, hn⟩ := hex
      exact ⟨m, hm, by rw [keyMostPopular, hn]⟩
    show (pySortedBy keyMostPopular movies).map (fun l => l.take 10) = .error .typeError
    simp [pySortedBy, hfe, Except.map]
  · intro movies hex
    have hfe : firstKeyError keyHighestGrossing movies = some .typeError := by
      refine firstKeyError_eq_typeError _ movies (fun m _ e he => keyHighestGrossing_error he) ?_
      obtain ⟨m, hm, hn⟩ := hex
      exact ⟨m, hm, by rw [keyHighestGrossing, hn]⟩
    show (pySortedBy keyHighestGrossing movies).map (fun l => l.take 10) = .error .typeError
    simp [pySortedBy, hfe, Except.map]
  · intro movies hex
    have hfe : firstKeyError keyLongestRuntime movies = some .typeError := by
      refine firstKeyError_eq_typeError _ movies (fun m _ e he => keyLongestRuntime_error he) ?_
      obtain ⟨m, hm, hn⟩ := hex
      exact ⟨m, hm, by rw [keyLongestRuntime, hn]⟩
    show (pySortedBy keyLongestRuntime movies).map (fun l => l.take 10) = .error .typeError
    simp [pySortedBy, hfe, Except.map]
  · intro movies hval hex
    have hfe : firstKeyError keyHiddenGems movies = some .typeError := by
      refine firstKeyError_eq_typeError _ movies
        (fun m hm e he => keyHiddenGems_error (hval m hm) he) ?_
      obtain ⟨m, hm, hn⟩ := hex
      refine ⟨m, hm, ?_⟩
      rcases hn with hn | hn
      · cases hv : m.no_of_votes with
        | none => rw [keyHiddenGems, hn, hv]
        | some v => rw [keyHiddenGems, hn, hv]
      · cases hr : m.imdb_rating with
        | none => rw [keyHiddenGems, hr, hn]
        | some r => rw [keyHiddenGems, hr, hn]
    show (pySortedBy keyHiddenGems movies).map (fun l => l.take 10) = .error .typeError
    simp [pySortedBy, hfe, Except.map]
  · intro movies hval hfields
    have hfe : firstKeyError keyHiddenGems movies = none :=
      firstKeyError_eq_none _ movies
        (fun m hm => keyHiddenGems_ok (hval m hm) (hfields m hm).1 (hfields m hm).2)
    refine ⟨(List.insertionSort
      (fun a b => sortKeyD keyHiddenGems a ≤ sortKeyD keyHiddenGems b) movies).take 10, ?_⟩
    show (pySortedBy keyHiddenGems movies).map (fun l => l.take 10) = _
    simp [pySortedBy, hfe, Except.map]

/-- The record gemA (rating 9, 100 votes) satisfies the model constraints. -/
theorem gemA_valid : gemA.Valid := by
  refine ⟨?_, ?_, ?_, ?_⟩
  · intro r hr; simp [gemA, emptyMovie] at hr
  · intro q hq
    simp [gemA, emptyMovie] at hq
    subst hq
    constructor <;> norm_num
  · intro s hs; simp [gemA, emptyMovie] at hs
  · intro v hv
    simp [gemA, emptyMovie] at hv
    omega

/-- Witness for (amended) claim C4: the failure branch on a record with no
votes and the success branch on a validated one-record collection. -/
theorem top_ten_missing_field_spec_witness :
    runTopTen "most-popular" [emptyMovie] = .error .typeError ∧
    (∃ l, runTopTen "hidden-gems" [gemA] = .ok l) :=
  ⟨top_ten_missing_field_spec.2.1 [emptyMovie] ⟨emptyMovie, by simp, rfl⟩,
   top_ten_missing_field_spec.2.2.2.2.2 [gemA]
     (fun m hm => by rw [List.mem_singleton] at hm; subst hm; exact gemA_valid)
     (fun m hm => by rw [List.mem_singleton] at hm; subst hm; exact ⟨rfl, rfl⟩)⟩

/-! ### Claim C6 -/

/-- The rating-to-votes ratio of a record (both fields present on the
paths where it is used). -/
def ratioD (m : MovieMetric) : ℚ :=
  m.imdb_rating.getD 0 / ((m.no_of_votes.getD 0 : Int) : ℚ)

/-- On a validated record with both fields present, the hidden-gems sort
key is the negated rating-to-votes ratio. -/
theorem keyHiddenGems_eq_neg_ratio {m : MovieMetric} (hval : m.Valid)
    (hr : m.imdb_rating.isSome = true) (hv : m.no_of_votes.isSome = true) :
    keyHiddenGems m = .ok (-(ratioD m)) := by
  obtain ⟨r, hr2⟩ := Option.isSome_iff_exists.mp hr
  obtain ⟨v, hv2⟩ := Option.isSome_iff_exists.mp hv
  have hv0 : v ≠ 0 := ne_of_gt (hval.2.2.2 v hv2)
  have hratio : ratioD m = r / (v : ℚ) := by simp [ratioD, hr2, hv2]
  rw [hratio]
  simp [keyHiddenGems, hr2, hv2, hv0, neg_div]

/-- Claim C6: the hidden-gems reduction ranks ascending by the key
-rating/votes, equivalently by rating/votes descending, with ties kept in
input order by the stable sort; in particular record B (rating 9, 10
votes) is ranked ahead of record A (rating 9, 100 votes). -/
theorem hidden_gems_spec :
    (∀ movies : List MovieMetric, (∀ m ∈ movies, m.Valid) →
      (∀ m ∈ movies, m.imdb_rating.isSome = true ∧ m.no_of_votes.isSome = true) →
      ∃ l, runTopTen "hidden-gems" movies = .ok l ∧
        l.Pairwise (fun a b => ratioD b ≤ ratioD a)) ∧
    (∀ A B : MovieMetric, A.Valid → B.Valid →
      A.imdb_rating.isSome = true → A.no_of_votes.isSome = true →
      B.imdb_rating.isSome = true → B.no_of_votes.isSome = true →
      ratioD A = ratioD B →
      runTopTen "hidden-gems" [A, B] = .ok [A, B]) ∧
    (∀ A B : MovieMetric,
      A.imdb_rating = some 9 → A.no_of_votes = some 100 →
      B.imdb_rating = some 9 → B.no_of_votes = some 10 →
      runTopTen "hidden-gems" [A, B] = .ok [B, A]) := by
  refine ⟨?_, ?_, ?_⟩
  · intro movies hval hfields
    have hok : ∀ m ∈ movies, keyHiddenGems m = .ok (-(ratioD m)) := fun m hm =>
      keyHiddenGems_eq_neg_ratio (hval m hm) (hfields m hm).1 (hfields m hm).2
    have hfe : firstKeyError keyHiddenGems movies = none :=
      firstKeyError_eq_none _ movies (fun m hm => ⟨_, hok m hm⟩)
    haveI : IsTotal MovieMetric
        (fun a b => sortKeyD keyHiddenGems a ≤ sortKeyD keyHiddenGems b) :=
      ⟨fun a b => le_total _ _⟩
    haveI : IsTrans MovieMetric
        (fun a b => sortKeyD keyHiddenGems a ≤ sortKeyD keyHiddenGems b) :=
      ⟨fun _ _ _ hab hbc => le_trans hab hbc⟩
    refine ⟨(List.insertionSort
        (fun a b => sortKeyD keyHiddenGems a ≤ sortKeyD keyHiddenGems b) movies).take 10,
      ?_, ?_⟩
    · show (pySortedBy keyHiddenGems movies).map (fun l => l.take 10) = _
      simp [pySortedBy, hfe, Except.map]
    · have hsorted := List.sorted_insertionSort
        (fun a b => sortKeyD keyHiddenGems a ≤ sortKeyD keyHiddenGems b) movies
      have htake := List.Pairwise.sublist (List.take_sublist 10 _) hsorted
      refine List.Pairwise.imp_of_mem ?_ htake
      intro a b ha hb hab
      have ha2 : a ∈ movies := by
        have := (List.take_sublist 10 _).subset ha
        rwa [List.mem_insertionSort] at this
      have hb2 : b ∈ movies := by
        have := (List.take_sublist 10 _).subset hb
        rwa [List.mem_insertionSort] at this
      have hsa : sortKeyD keyHiddenGems a = -(ratioD a) := by simp [sortKeyD, hok a ha2]
      have hsb : sortKeyD keyHiddenGems b = -(ratioD b) := by simp [sortKeyD, hok b hb2]
      rw [hsa, hsb] at hab
      exact neg_le_neg_iff.mp hab
  · intro A B hvalA hvalB hrA hvA hrB hvB htie
    have kA := keyHiddenGems_eq_neg_ratio hvalA hrA hvA
    have kB := keyHiddenGems_eq_neg_ratio hvalB hrB hvB
    have hfe : firstKeyError keyHiddenGems [A, B] = none := by
      simp [firstKeyError, List.findSome?, kA, kB]
    have hsA : sortKeyD keyHiddenGems A = -(ratioD A) := by simp [sortKeyD, kA]
    have hsB : sortKeyD keyHiddenGems B = -(ratioD B) := by simp [sortKeyD, kB]
    show (pySortedBy keyHiddenGems [A, B]).map (fun l => l.take 10) = .ok [A, B]
    simp [pySortedBy, hfe, Except.map, hsA, hsB, htie]
  · intro A B hrA hvA hrB hvB
    have kA : keyHiddenGems A = .ok (-(9 : ℚ) / ((100 : Int) : ℚ)) := by
      simp [keyHiddenGems, hrA, hvA]
    have kB : keyHiddenGems B = .ok (-(9 : ℚ) / ((10 : Int) : ℚ)) := by
      simp [keyHiddenGems, hrB, hvB]
    have hfe : firstKeyError keyHiddenGems [A, B] = none := by
      simp [firstKeyError, List.findSome?, kA, kB]
    have hsA : sortKeyD keyHiddenGems A = -(9 : ℚ) / 100 := by
      simp [sortKeyD, kA]
    have hsB : sortKeyD keyHiddenGems B = -(9 : ℚ) / 10 := by
      simp [sortKeyD, kB]
    have hcond : ¬ (sortKeyD keyHiddenGems A ≤ sortKeyD keyHiddenGems B) := by
      rw [hsA, hsB]; norm_num
    show (pySortedBy keyHiddenGems [A, B]).map (fun l => l.take 10) = .ok [B, A]
    simp [pySortedBy, hfe, Except.map, hcond]

/-- Witness for claim C6: the concrete two-record scenario of the claim. -/
theorem hidden_gems_spec_witness :
    runTopTen "hidden-gems" [gemA, gemB] = .ok [gemB, gemA] :=
  hidden_gems_spec.2.2 gemA gemB rfl rfl rfl rfl
